import Mathlib

/-!
Verification of the conversion dispatcher and conversion routines of the
ipynb_to_pdf repository (src/file_converter_app.py and src/app.py).

The Python code is shallowly embedded: pure data flow becomes Lean
functions, filesystem effects become explicit state passing on an `FS`
record, and calls into third-party libraries (PIL, pandas, openpyxl,
pdf2image, nbconvert) are modelled by small executable Lean functions whose
doc comments state the library behaviour they capture.  A Python exception
is an `Except.error`; an `except` block is a `match` on that value.
-/

namespace FileConverterApp

/-- Byte sequences are modelled as lists of natural numbers. -/
abbrev Bytes := List Nat

/-! ### Decimal rendering and parsing of integers

pandas type inference turns a CSV field that reads as an integer into an
integer value, and serialization prints that integer back in decimal.
The two functions below (with their round-trip proof) model that pair.
-/

/-- The ASCII digit character for a value below ten. -/
def digitChar (d : Nat) : Char := Char.ofNat (48 + d)

/-- Fuel-driven digit expansion; with fuel above the value it computes the
decimal digits, most significant first. -/
def natDigitsGo (fuel : Nat) (n : Nat) : List Char :=
  match fuel with
  | 0 => []
  | fuel + 1 =>
    if n < 10 then [digitChar n]
    else natDigitsGo fuel (n / 10) ++ [digitChar (n % 10)]

/-- Decimal digit characters of a natural number, most significant first. -/
def natDigits (n : Nat) : List Char := natDigitsGo (n + 1) n

theorem natDigitsGo_fuel : ∀ fuel1 fuel2 n, n < fuel1 → n < fuel2 →
    natDigitsGo fuel1 n = natDigitsGo fuel2 n := by
  intro fuel1
  induction fuel1 with
  | zero => intro fuel2 n h1; omega
  | succ f1 ih =>
    intro fuel2 n h1 h2
    cases fuel2 with
    | zero => omega
    | succ f2 =>
      simp only [natDigitsGo]
      by_cases h : n < 10
      · rw [if_pos h, if_pos h]
      · rw [if_neg h, if_neg h, ih f2 (n / 10) (by omega) (by omega)]

/-- One unfolding step of natDigitsGo at positive fuel. -/
theorem natDigitsGo_succ (fuel n : Nat) :
    natDigitsGo (fuel + 1) n = if n < 10 then [digitChar n]
      else natDigitsGo fuel (n / 10) ++ [digitChar (n % 10)] := rfl

/-- The recurrence natDigits satisfies. -/
theorem natDigits_eq (n : Nat) :
    natDigits n = if n < 10 then [digitChar n]
      else natDigits (n / 10) ++ [digitChar (n % 10)] := by
  have hstep : natDigits n = if n < 10 then [digitChar n]
      else natDigitsGo n (n / 10) ++ [digitChar (n % 10)] := natDigitsGo_succ n n
  rw [hstep]
  by_cases h : n < 10
  · rw [if_pos h, if_pos h]
  · rw [if_neg h, if_neg h, natDigitsGo_fuel n (n / 10 + 1) (n / 10) (by omega) (by omega)]
    rfl

/-- Numeric value of an ASCII digit character, none for other characters. -/
def digitVal (c : Char) : Option Nat :=
  if 48 ≤ c.toNat ∧ c.toNat ≤ 57 then some (c.toNat - 48) else none

/-- Accumulator-style decimal parser over a character list. -/
def parseNatAux : List Char → Nat → Option Nat
  | [], acc => some acc
  | c :: cs, acc =>
    match digitVal c with
    | some d => parseNatAux cs (10 * acc + d)
    | none => none

/-- Parse a nonempty all-digit character list as a natural number. -/
def parseNatL (l : List Char) : Option Nat :=
  if l.isEmpty then none else parseNatAux l 0

/-- Decimal rendering of an integer, with a leading minus sign if negative. -/
def intRender (n : Int) : List Char :=
  if n < 0 then '-' :: natDigits n.natAbs else natDigits n.natAbs

/-- Parse an optional minus sign followed by decimal digits as an integer. -/
def parseIntL (l : List Char) : Option Int :=
  if l.head? = some '-' then (parseNatL l.tail).map (fun m : Nat => -(m : Int))
  else (parseNatL l).map (fun m : Nat => (m : Int))

theorem digitVal_digitChar : ∀ d, d < 10 → digitVal (digitChar d) = some d := by decide

theorem digitChar_range : ∀ d, d < 10 → 48 ≤ (digitChar d).toNat ∧ (digitChar d).toNat ≤ 57 := by
  decide

theorem natDigits_ne_nil (n : Nat) : natDigits n ≠ [] := by
  rw [natDigits_eq]
  split <;> simp

theorem natDigits_mem (n : Nat) : ∀ c ∈ natDigits n, 48 ≤ c.toNat ∧ c.toNat ≤ 57 := by
  induction n using Nat.strong_induction_on with
  | _ n ih =>
    by_cases h : n < 10
    · rw [natDigits_eq, if_pos h]
      intro c hc
      simp only [List.mem_singleton] at hc
      subst hc
      exact digitChar_range n h
    · rw [natDigits_eq, if_neg h]
      intro c hc
      rcases List.mem_append.mp hc with hc | hc
      · exact ih (n / 10) (by omega) c hc
      · simp only [List.mem_singleton] at hc
        subst hc
        exact digitChar_range (n % 10) (by omega)

theorem parseNatAux_append (l1 l2 : List Char) (acc : Nat) :
    parseNatAux (l1 ++ l2) acc =
      (parseNatAux l1 acc).bind (fun a => parseNatAux l2 a) := by
  induction l1 generalizing acc with
  | nil => rfl
  | cons c cs ih =>
    simp only [List.cons_append, parseNatAux]
    cases digitVal c with
    | none => rfl
    | some d => exact ih (10 * acc + d)

theorem parseNatAux_natDigits (n : Nat) :
    ∀ acc, parseNatAux (natDigits n) acc = some (acc * 10 ^ (natDigits n).length + n) := by
  induction n using Nat.strong_induction_on with
  | _ n ih =>
    intro acc
    by_cases h : n < 10
    · rw [natDigits_eq, if_pos h]
      simp only [parseNatAux, digitVal_digitChar n h, List.length_singleton, pow_one,
        Option.some.injEq]
      omega
    · rw [natDigits_eq, if_neg h]
      rw [parseNatAux_append, ih (n / 10) (by omega) acc, Option.some_bind']
      simp only [parseNatAux, digitVal_digitChar (n % 10) (by omega),
        List.length_append, List.length_singleton, Option.some.injEq]
      calc 10 * (acc * 10 ^ (natDigits (n / 10)).length + n / 10) + n % 10
          = acc * 10 ^ ((natDigits (n / 10)).length + 1) + (10 * (n / 10) + n % 10) := by ring
        _ = acc * 10 ^ ((natDigits (n / 10)).length + 1) + n := by omega

theorem parseNatL_natDigits (n : Nat) : parseNatL (natDigits n) = some n := by
  unfold parseNatL
  rw [if_neg (by simp [List.isEmpty_iff, natDigits_ne_nil])]
  rw [parseNatAux_natDigits]
  simp

theorem natDigits_head_ne_neg (n : Nat) : (natDigits n).head? ≠ some '-' := by
  cases h : natDigits n with
  | nil => simp
  | cons a t =>
    simp only [List.head?_cons, ne_eq, Option.some.injEq]
    intro hc
    subst hc
    have := natDigits_mem n '-' (by rw [h]; exact List.mem_cons_self _ _)
    revert this
    decide

theorem parseIntL_intRender (n : Int) : parseIntL (intRender n) = some n := by
  by_cases h : n < 0
  · rw [intRender, if_pos h]
    rw [parseIntL, if_pos (by simp)]
    simp only [List.tail_cons, parseNatL_natDigits, Option.map_some', Option.some.injEq]
    rw [Int.ofNat_natAbs_of_nonpos (le_of_lt h)]
    exact neg_neg n
  · rw [intRender, if_neg h]
    rw [parseIntL, if_neg (natDigits_head_ne_neg n.natAbs)]
    simp only [parseNatL_natDigits, Option.map_some', Option.some.injEq]
    exact Int.natAbs_of_nonneg (by omega)

/-! ### Model of the pandas tabular layer

The tabular routines of src/file_converter_app.py (lines 57-79) delegate to
pandas.  A CSV file is modelled at the field level, as the grid of string
fields pandas obtains after lexing (`Csv`); a DataFrame holds a header and
rows of typed cells; reading infers an integer type for fields that parse
as integers (the numeric normalization the spec mentions) and writing
renders every cell back to text.
-/

/-- A DataFrame cell: either text or an inferred integer. -/
inductive Cell
  | str (s : String)
  | num (n : Int)
deriving DecidableEq

/-- pandas type inference for one field: integer if it parses as one. -/
def inferCell (s : String) : Cell :=
  match parseIntL s.data with
  | some n => Cell.num n
  | none => Cell.str s

/-- Serialization of one cell back to a text field. -/
def renderCell : Cell → String
  | Cell.str s => s
  | Cell.num n => String.mk (intRender n)

/-- The in-memory table pandas builds: header plus rows of cells. -/
structure DataFrame where
  header : List String
  rows : List (List Cell)
deriving DecidableEq

/-- A CSV file as the grid of its comma-separated fields. -/
abbrev Csv := List (List String)

/-- Model of pandas.read_csv: first row is the header, the remaining rows
are parsed with per-field numeric type inference. -/
def read_csv (file : Csv) : DataFrame :=
  match file with
  | [] => ⟨[], []⟩
  | h :: rs => ⟨h, rs.map (List.map inferCell)⟩

/-- Model of DataFrame.to_csv with index=False: the header row followed by
the rendered data rows, columns kept in order. -/
def to_csv (df : DataFrame) : Csv :=
  df.header :: df.rows.map (List.map renderCell)

/-- An openpyxl workbook as written by DataFrame.to_excel: the sheet keeps
the header row (stored as text cells) and the typed data rows, and the
document properties carry the creation timestamp that openpyxl fills in
with the current time of the run. -/
structure Xlsx where
  created : Nat
  sheet : List (List Cell)
deriving DecidableEq

/-- Model of DataFrame.to_excel with index=False via openpyxl: the header
row is written first, column order kept; the workbook properties record the
time of the run. -/
def to_excel (df : DataFrame) (now : Nat) : Xlsx :=
  ⟨now, df.header.map Cell.str :: df.rows⟩

/-- Model of pandas.read_excel: the first sheet row becomes the header, the
remaining rows keep the cell types stored in the workbook. -/
def read_excel (x : Xlsx) : DataFrame :=
  match x.sheet with
  | [] => ⟨[], []⟩
  | h :: rs => ⟨h.map renderCell, rs⟩

/-- src/file_converter_app.py lines 57-61: pd.read_csv then to_excel with
index=False.  The BytesIO payload is the workbook serialized by xlsxBytes. -/
def convert_csv_to_xlsx (file : Csv) (now : Nat) : Xlsx :=
  to_excel (read_csv file) now

/-- src/file_converter_app.py lines 63-67: pd.read_excel then to_csv with
index=False. -/
def convert_xlsx_to_csv (x : Xlsx) : Csv :=
  to_csv (read_excel x)

/-- Byte serialization of one cell inside the workbook archive. -/
def cellBytes : Cell → Bytes
  | Cell.num n => [1, n.natAbs, if n < 0 then 1 else 0]
  | Cell.str s => 0 :: s.data.map Char.toNat

/-- Byte serialization of the worksheet part of the workbook archive. -/
def sheetBytes (rows : List (List Cell)) : Bytes :=
  (rows.map (fun r => (r.map cellBytes).flatten ++ [2])).flatten

/-- Bytes of the workbook archive: openpyxl writes the document properties,
including the run-dependent creation timestamp, ahead of the worksheet
payload; the timestamp is modelled as the leading entry. -/
def xlsxBytes (x : Xlsx) : Bytes :=
  x.created :: sheetBytes x.sheet

theorem renderCell_str (s : String) : renderCell (Cell.str s) = s := rfl

/-- Re-parsing a rendered cell gives the cell back: normalization is
idempotent. -/
theorem inferCell_renderCell_inferCell (s : String) :
    inferCell (renderCell (inferCell s)) = inferCell s := by
  unfold inferCell
  cases hp : parseIntL s.data with
  | none => simp [renderCell, hp]
  | some n =>
    have hmk : (String.mk (intRender n)).data = intRender n := rfl
    simp [renderCell, hmk, parseIntL_intRender n]

/-- Claim C6: converting any CSV table to XLSX and back yields a table
with the identical header in the identical order, and with identical cell
values up to numeric type normalization: parsing the round-tripped file
gives exactly the table parsed from the original file. -/
theorem csv_xlsx_csv_roundtrip (hd : List String) (rows : List (List String)) (now : Nat) :
    (convert_xlsx_to_csv (convert_csv_to_xlsx (hd :: rows) now)).head? = some hd ∧
    read_csv (convert_xlsx_to_csv (convert_csv_to_xlsx (hd :: rows) now)) =
      read_csv (hd :: rows) := by
  have hhd : (hd.map Cell.str).map renderCell = hd := by
    rw [List.map_map]
    have hcomp : renderCell ∘ Cell.str = id := funext (fun _ => rfl)
    rw [hcomp, List.map_id]
  have hcore : convert_xlsx_to_csv (convert_csv_to_xlsx (hd :: rows) now) =
      hd :: (rows.map (List.map inferCell)).map (List.map renderCell) := by
    simp [convert_csv_to_xlsx, convert_xlsx_to_csv, read_csv, to_excel, read_excel, to_csv, hhd]
  constructor
  · rw [hcore]
    rfl
  · rw [hcore]
    simp only [read_csv, DataFrame.mk.injEq, true_and, List.map_map]
    apply List.map_congr_left
    intro r _
    simp only [Function.comp_apply, List.map_map]
    apply List.map_congr_left
    intro s _
    exact inferCell_renderCell_inferCell s

/-- Witness for csv_xlsx_csv_roundtrip on a table whose field 007 is
subject to numeric normalization. -/
theorem csv_xlsx_csv_roundtrip_witness :
    (convert_xlsx_to_csv (convert_csv_to_xlsx [["a", "b"], ["007", "x"]] 0)).head? =
      some ["a", "b"] ∧
    read_csv (convert_xlsx_to_csv (convert_csv_to_xlsx [["a", "b"], ["007", "x"]] 0)) =
      read_csv [["a", "b"], ["007", "x"]] :=
  csv_xlsx_csv_roundtrip ["a", "b"] [["007", "x"]] 0

/-! ### Model of the JSON tabular routines

src/file_converter_app.py lines 69-79: pd.read_json parses a JSON array of
records into a DataFrame; DataFrame.to_json with orient records and
lines=True writes one JSON object per row, the rows separated by newline
characters.
-/

/-- Join strings with a separator, the shape to_json produces in lines
mode. -/
def joinSep (sep : String) : List String → String
  | [] => ""
  | [s] => s
  | s :: r :: t => s ++ sep ++ joinSep sep (r :: t)

/-- Split a character list at newline characters. -/
def splitNLChars : List Char → List (List Char)
  | [] => [[]]
  | c :: cs =>
    if c = '\n' then [] :: splitNLChars cs
    else (c :: (splitNLChars cs).headI) :: (splitNLChars cs).tail

/-- Split a string into its lines. -/
def splitNLStr (s : String) : List String :=
  (splitNLChars s.data).map String.mk

/-- A string free of newline characters. -/
def nlFree (s : String) : Prop := '\n' ∉ s.data

instance (s : String) : Decidable (nlFree s) := by
  unfold nlFree
  infer_instance

theorem strData_append (a b : String) : (a ++ b).data = a.data ++ b.data := rfl

theorem nlFree_append {a b : String} (ha : nlFree a) (hb : nlFree b) : nlFree (a ++ b) := by
  unfold nlFree at *
  rw [strData_append]
  simp only [List.mem_append]
  tauto

theorem nlFree_joinSep (sep : String) (hsep : nlFree sep) :
    ∀ parts : List String, (∀ p ∈ parts, nlFree p) → nlFree (joinSep sep parts) := by
  intro parts
  induction parts with
  | nil =>
    intro _
    unfold nlFree joinSep
    simp
  | cons s rest ih =>
    intro h
    cases rest with
    | nil => exact h s (List.mem_cons_self _ _)
    | cons r t =>
      show nlFree (s ++ sep ++ joinSep sep (r :: t))
      exact nlFree_append (nlFree_append (h s (List.mem_cons_self _ _)) hsep)
        (ih (fun p hp => h p (List.mem_cons_of_mem _ hp)))

theorem splitNLChars_cons (c : Char) (cs : List Char) (h : ¬c = '\n') :
    splitNLChars (c :: cs) = (c :: (splitNLChars cs).headI) :: (splitNLChars cs).tail := by
  rw [splitNLChars]
  rw [if_neg h]

theorem splitNLChars_nlfree (l : List Char) (h : '\n' ∉ l) : splitNLChars l = [l] := by
  induction l with
  | nil => rfl
  | cons c cs ih =>
    simp only [List.mem_cons, not_or] at h
    rw [splitNLChars_cons c cs (fun hc => h.1 (by rw [hc]))]
    rw [ih h.2]
    rfl

theorem splitNLChars_append (l1 l2 : List Char) (h : '\n' ∉ l1) :
    splitNLChars (l1 ++ '\n' :: l2) = l1 :: splitNLChars l2 := by
  induction l1 with
  | nil =>
    show splitNLChars ('\n' :: l2) = [] :: splitNLChars l2
    rw [splitNLChars]
    rw [if_pos rfl]
  | cons c cs ih =>
    simp only [List.mem_cons, not_or] at h
    show splitNLChars (c :: (cs ++ '\n' :: l2)) = (c :: cs) :: splitNLChars l2
    rw [splitNLChars_cons c _ (fun hc => h.1 (by rw [hc]))]
    rw [ih h.2]
    rfl

theorem strMk_data (s : String) : String.mk s.data = s := rfl

/-- Splitting a newline-joined list of newline-free strings recovers the
list: to_json in lines mode puts exactly one record on each line. -/
theorem splitNLStr_joinSep (parts : List String) (hne : parts ≠ [])
    (h : ∀ p ∈ parts, nlFree p) : splitNLStr (joinSep "\n" parts) = parts := by
  induction parts with
  | nil => exact absurd rfl hne
  | cons s rest ih =>
    cases rest with
    | nil =>
      show splitNLStr s = [s]
      unfold splitNLStr
      rw [splitNLChars_nlfree s.data (h s (List.mem_cons_self _ _))]
      simp [strMk_data]
    | cons r t =>
      show splitNLStr (s ++ "\n" ++ joinSep "\n" (r :: t)) = s :: r :: t
      unfold splitNLStr
      have hdata : (s ++ "\n" ++ joinSep "\n" (r :: t)).data =
          s.data ++ '\n' :: (joinSep "\n" (r :: t)).data := by
        rw [strData_append, strData_append, List.append_assoc]
        rfl
      rw [hdata, splitNLChars_append s.data _ (h s (List.mem_cons_self _ _))]
      have hrest : splitNLStr (joinSep "\n" (r :: t)) = r :: t :=
        ih (by simp) (fun p hp => h p (List.mem_cons_of_mem _ hp))
      unfold splitNLStr at hrest
      simp only [List.map_cons, strMk_data, hrest]

/-- JSON literal for one cell value: numbers bare, text quoted. -/
def jsonCell : Cell → String
  | Cell.num n => String.mk (intRender n)
  | Cell.str s => "\"" ++ s ++ "\""

/-- One JSON record: the row cells keyed by the header names, in column
order. -/
def jsonRecord (hd : List String) (cells : List Cell) : String :=
  "\x7b" ++ joinSep "," ((hd.zip cells).map fun kv => "\"" ++ kv.1 ++ "\":" ++ jsonCell kv.2) ++
    "\x7d"

/-- Model of DataFrame.to_json with orient records and lines=True: one JSON
object per data row, rows separated by newlines. -/
def to_json_records_lines (df : DataFrame) : String :=
  joinSep "\n" (df.rows.map (jsonRecord df.header))

/-- src/file_converter_app.py lines 75-79: pd.read_csv then to_json with
orient records and lines=True. -/
def convert_csv_to_json (file : Csv) : String :=
  to_json_records_lines (read_csv file)

/-- Model of pd.read_json on an array of records: the keys of the first
record give the header in order, the values give the rows. -/
def read_json (records : List (List (String × Cell))) : DataFrame :=
  match records with
  | [] => ⟨[], []⟩
  | r :: _ => ⟨r.map Prod.fst, records.map (List.map Prod.snd)⟩

/-- src/file_converter_app.py lines 69-73: pd.read_json then to_csv with
index=False. -/
def convert_json_to_csv (records : List (List (String × Cell))) : Csv :=
  to_csv (read_json records)

theorem natDigits_no_nl (m : Nat) : '\n' ∉ natDigits m := by
  intro hmem
  have hrange := natDigits_mem m '\n' hmem
  revert hrange
  decide

theorem intRender_no_nl (n : Int) : '\n' ∉ intRender n := by
  unfold intRender
  split
  · simp only [List.mem_cons, not_or]
    exact ⟨by decide, natDigits_no_nl _⟩
  · exact natDigits_no_nl _

theorem nlFree_jsonCell_infer (s : String) (h : nlFree s) :
    nlFree (jsonCell (inferCell s)) := by
  cases hp : parseIntL s.data with
  | some n =>
    simp only [inferCell, hp]
    show nlFree (String.mk (intRender n))
    exact intRender_no_nl n
  | none =>
    simp only [inferCell, hp]
    show nlFree ("\"" ++ s ++ "\"")
    exact nlFree_append (nlFree_append (by decide) h) (by decide)

theorem nlFree_jsonRecord (hd : List String) (r : List String)
    (hhd : ∀ k ∈ hd, nlFree k) (hr : ∀ s ∈ r, nlFree s) :
    nlFree (jsonRecord hd (r.map inferCell)) := by
  unfold jsonRecord
  refine nlFree_append (nlFree_append (by decide) ?_) (by decide)
  apply nlFree_joinSep _ (by decide)
  intro p hp
  simp only [List.mem_map] at hp
  obtain ⟨kv, hkv, rfl⟩ := hp
  have hmem := List.of_mem_zip hkv
  have hk : nlFree kv.1 := hhd kv.1 hmem.1
  have hv : nlFree (jsonCell kv.2) := by
    have h2 := hmem.2
    simp only [List.mem_map] at h2
    obtain ⟨s, hs, hcell⟩ := h2
    rw [← hcell]
    exact nlFree_jsonCell_infer s (hr s hs)
  exact nlFree_append (nlFree_append (nlFree_append (by decide) hk) (by decide)) hv

/-- Claim C7: the tabular conversions parse the whole input into a
DataFrame and re-serialize it with the header row first and the column
order kept (CSV output, XLSX sheet, and JSON to CSV), and the JSON output
of CSV to JSON has exactly one record per line, records in row order. -/
theorem tabular_header_and_json_lines (hd : List String) (rows : List (List String)) (now : Nat)
    (hrows : rows ≠ [])
    (hhd : ∀ k ∈ hd, nlFree k)
    (hcells : ∀ r ∈ rows, ∀ s ∈ r, nlFree s) :
    (to_csv (read_csv (hd :: rows))).head? = some hd ∧
    (convert_csv_to_xlsx (hd :: rows) now).sheet.head? = some (hd.map Cell.str) ∧
    splitNLStr (convert_csv_to_json (hd :: rows)) =
      rows.map (fun r => jsonRecord hd (r.map inferCell)) ∧
    (splitNLStr (convert_csv_to_json (hd :: rows))).length = rows.length ∧
    (∀ (r : List (String × Cell)) (more : List (List (String × Cell))),
      (convert_json_to_csv (r :: more)).head? = some (r.map Prod.fst)) := by
  have hjson : convert_csv_to_json (hd :: rows) =
      joinSep "\n" (rows.map (fun r => jsonRecord hd (r.map inferCell))) := by
    unfold convert_csv_to_json to_json_records_lines read_csv
    rw [List.map_map]
    rfl
  have hsplit : splitNLStr (convert_csv_to_json (hd :: rows)) =
      rows.map (fun r => jsonRecord hd (r.map inferCell)) := by
    rw [hjson]
    apply splitNLStr_joinSep
    · simp [hrows]
    · intro p hp
      simp only [List.mem_map] at hp
      obtain ⟨r, hr, rfl⟩ := hp
      exact nlFree_jsonRecord hd r hhd (hcells r hr)
  refine ⟨rfl, rfl, hsplit, ?_, fun r more => rfl⟩
  rw [hsplit, List.length_map]

/-- Witness for tabular_header_and_json_lines on a concrete table. -/
theorem tabular_header_and_json_lines_witness :
    (to_csv (read_csv [["a", "b"], ["1", "x"]])).head? = some ["a", "b"] ∧
    splitNLStr (convert_csv_to_json [["a", "b"], ["1", "x"]]) =
      [["1", "x"]].map (fun r => jsonRecord ["a", "b"] (r.map inferCell)) ∧
    (convert_json_to_csv [[("k", Cell.num 3)]]).head? = some ["k"] :=
  ⟨(tabular_header_and_json_lines ["a", "b"] [["1", "x"]] 0 (by decide) (by decide)
      (by decide)).1,
   (tabular_header_and_json_lines ["a", "b"] [["1", "x"]] 0 (by decide) (by decide)
      (by decide)).2.2.1,
   (tabular_header_and_json_lines ["a", "b"] [["1", "x"]] 0 (by decide) (by decide)
      (by decide)).2.2.2.2 [("k", Cell.num 3)] []⟩

/-! ### Model of the PIL image routines

src/file_converter_app.py lines 19-23 and 93-98 delegate to PIL.  A decoded
image is a mode plus a pixel list; Image.convert to RGB drops the alpha
channel leaving every pixel opaque.  Image.save receives the format as a
string, exactly the string the route table supplies (JPG, PNG, WebP, PDF;
line 89 passes JPEG): save looks the uppercased string up in its save
registry and a KeyError escapes when it is not a key — the registry is
keyed JPEG, never JPG, so the PNG to JPG route raises for every input; a
found handler refuses alpha modes for formats without alpha support; the
PDF container written by save embeds the current time as its creation
date, the raster formats do not.
-/

/-- PIL color modes relevant here. -/
inductive PMode
  | RGB
  | RGBA
deriving DecidableEq

/-- One RGBA pixel. -/
structure Pixel where
  r : Nat
  g : Nat
  b : Nat
  a : Nat
deriving DecidableEq

/-- A decoded PIL image. -/
structure PILImage where
  mode : PMode
  px : List Pixel
deriving DecidableEq

def modeHasAlpha : PMode → Bool
  | PMode.RGBA => true
  | PMode.RGB => false

def modeName : PMode → String
  | PMode.RGB => "RGB"
  | PMode.RGBA => "RGBA"

/-- Uppercasing of the format argument, as Image.save applies before the
registry lookup. -/
def strUpper (s : String) : String := String.mk (s.data.map Char.toUpper)

/-- The keys of the PIL save registry among the containers reachable here.
The registry is keyed by canonical format names; JPG is not a key, which is
why save with format JPG raises KeyError. -/
def saveRegistry : List String := ["JPEG", "PNG", "WEBP", "GIF", "PDF"]

/-- Registry formats that cannot represent an alpha channel. -/
def alphaLessFormats : List String := ["JPEG", "PDF"]

/-- Image.convert to RGB: the alpha channel is discarded, every pixel
becomes opaque against the existing base values. -/
def convertRGB (img : PILImage) : PILImage :=
  ⟨PMode.RGB, img.px.map fun p => ⟨p.r, p.g, p.b, 255⟩⟩

/-- Leading file-signature byte per canonical registry format. -/
def fmtTag (f : String) : Nat :=
  if f = "JPEG" then 255
  else if f = "PNG" then 137
  else if f = "WEBP" then 82
  else if f = "GIF" then 71
  else if f = "PDF" then 37
  else 0

def pixelBytes (px : List Pixel) : Bytes :=
  (px.map fun p => [p.r, p.g, p.b, p.a]).flatten

/-- Encoded output: signature byte then pixel data; only the PDF container
embeds the run time as a creation date. -/
def encodeBytes (f : String) (img : PILImage) (now : Nat) : Bytes :=
  if f = "PDF" then fmtTag f :: now :: pixelBytes img.px
  else fmtTag f :: pixelBytes img.px

/-- Image.save with an explicit format string: the handler is looked up
under the uppercased string in the save registry and a KeyError escapes
when it is absent; a found handler refuses alpha modes for formats without
alpha; otherwise it encodes. -/
def pil_save (img : PILImage) (format : String) (now : Nat) : Except String Bytes :=
  if saveRegistry.contains (strUpper format) = false then
    Except.error ("KeyError: \x27" ++ format ++ "\x27")
  else if modeHasAlpha img.mode && alphaLessFormats.contains (strUpper format) then
    Except.error ("cannot write mode " ++ modeName img.mode ++ " as " ++ strUpper format)
  else Except.ok (encodeBytes (strUpper format) img now)

/-- src/file_converter_app.py lines 19-23: Image.open, convert to RGB, save
with the format string the route table supplies as output_ext. -/
def convert_image_to_format (image : PILImage) (target_format : String) (now : Nat) :
    Except String Bytes :=
  pil_save (convertRGB image) target_format now

/-- src/file_converter_app.py lines 93-98: Image.open, convert to RGB, save
with the format string PDF. -/
def image_to_pdf (file : PILImage) (now : Nat) : Except String Bytes :=
  pil_save (convertRGB file) "PDF" now

/-- Claim C5, the bug in the code: the route table (line 114) supplies the
format string JPG, which is not a save-registry key, so the PNG to JPG
route raises KeyError for every input — the image is never re-encoded on
that route, flattened or not.  On the format strings that are registry
keys the claimed behaviour does hold: the image is flattened to the opaque
intermediate RGB model and encoding succeeds for every input. -/
theorem jpg_route_always_fails (img : PILImage) (now : Nat) :
    convert_image_to_format img "JPG" now = Except.error "KeyError: \x27JPG\x27" ∧
    (convertRGB img).mode = PMode.RGB ∧
    convert_image_to_format img "PNG" now =
      Except.ok (encodeBytes "PNG" (convertRGB img) now) ∧
    convert_image_to_format img "WebP" now =
      Except.ok (encodeBytes "WEBP" (convertRGB img) now) ∧
    image_to_pdf img now = Except.ok (encodeBytes "PDF" (convertRGB img) now) := by
  refine ⟨rfl, rfl, rfl, rfl, rfl⟩

/-- Every flattened pixel is opaque: the transparency really is dropped
before encoding. -/
theorem convertRGB_opaque (img : PILImage) : ∀ p ∈ (convertRGB img).px, p.a = 255 := by
  intro p hp
  simp only [convertRGB, List.mem_map] at hp
  obtain ⟨q, _, rfl⟩ := hp
  rfl

/-- Claim C9 as amended: the image conversions are independent of the run
time for every non-PDF format string — identical success bytes on registry
formats, the identical KeyError on the broken JPG string — and the workbook
written by the CSV to XLSX routine has a run-independent worksheet payload
after its leading timestamp entry. -/
theorem deterministic_modulo_timestamps (img : PILImage) (fmt : String) (file : Csv)
    (n1 n2 : Nat) :
    (strUpper fmt ≠ "PDF" →
      convert_image_to_format img fmt n1 = convert_image_to_format img fmt n2) ∧
    (xlsxBytes (convert_csv_to_xlsx file n1)).tail = (xlsxBytes (convert_csv_to_xlsx file n2)).tail := by
  constructor
  · intro hf
    unfold convert_image_to_format pil_save encodeBytes
    split_ifs with c1 c2
    · rfl
    · rfl
    · rfl
  · rfl

/-- Witness for deterministic_modulo_timestamps at a concrete image, a
valid format string, and a concrete table. -/
theorem deterministic_modulo_timestamps_witness :
    convert_image_to_format ⟨PMode.RGB, [⟨9, 9, 9, 255⟩]⟩ "PNG" 0 =
      convert_image_to_format ⟨PMode.RGB, [⟨9, 9, 9, 255⟩]⟩ "PNG" 1 ∧
    (xlsxBytes (convert_csv_to_xlsx [["a"], ["1"]] 0)).tail =
      (xlsxBytes (convert_csv_to_xlsx [["a"], ["1"]] 1)).tail :=
  ⟨(deterministic_modulo_timestamps ⟨PMode.RGB, [⟨9, 9, 9, 255⟩]⟩ "PNG" [["a"], ["1"]] 0 1).1
     (by decide),
   (deterministic_modulo_timestamps ⟨PMode.RGB, [⟨9, 9, 9, 255⟩]⟩ "PNG" [["a"], ["1"]] 0 1).2⟩

/-- Counterexample to claim C9 as stated: the CSV to XLSX routine is a
tabular conversion, yet running it twice on the same input at different
times yields different bytes, because openpyxl embeds the creation
timestamp in the workbook. -/
theorem xlsx_bytes_vary_between_runs :
    xlsxBytes (convert_csv_to_xlsx [["a"], ["1"]] 0) ≠
      xlsxBytes (convert_csv_to_xlsx [["a"], ["1"]] 1) := by decide

/-! ### Scratch files and the one-to-many PDF routine

src/file_converter_app.py lines 25-31 and 81-91 write the upload into a
named temporary file so that a path-based library API can read it.  The
filesystem is modelled explicitly; tempfile.NamedTemporaryFile with delete
set to False creates the file, and leaving the with block only closes the
handle — because delete is False nothing removes the file, on any exit
path.
-/

/-- The filesystem visible to the routines: existing files and contents. -/
structure FS where
  files : List (String × Bytes)
deriving DecidableEq

/-- A rendered page of a PDF document. -/
abbrev Page := Nat

/-- JPEG encoding of one rendered page: the JPEG start marker then the
page payload. -/
def encodeJPEG (p : Page) : Bytes := [255, 216, p]

/-- The name given to the output for 0-based page index i. -/
def pageName (i : Nat) : String := "page_" ++ toString (i + 1) ++ ".jpg"

/-- The loop of lines 87-90: enumerate the rendered pages, encode each as
JPEG, and collect the (name, bytes) pairs in page order. -/
def pageOutputs (images : List Page) : List (String × Bytes) :=
  images.enum.map fun p => (pageName p.1, encodeJPEG p.2)

/-- src/file_converter_app.py lines 81-91.  The scratch PDF is created and
written; convert_from_path (the pdf2image renderer, a parameter here)
renders one image per page from the scratch path; the with block closes
but does not delete the scratch file whether the renderer returns or
raises. -/
def convert_pdf_to_images (fs : FS) (tmpName : String) (content : Bytes)
    (convert_from_path : Bytes → Except String (List Page)) :
    Except String (List (String × Bytes)) × FS :=
  let fs1 : FS := ⟨fs.files ++ [(tmpName, content)]⟩
  match convert_from_path content with
  | Except.ok images => (Except.ok (pageOutputs images), fs1)
  | Except.error e => (Except.error e, fs1)

/-- src/file_converter_app.py lines 25-31, the same scratch-file pattern
around PDFExporter.from_filename (a parameter here). -/
def convert_ipynb_to_pdf (fs : FS) (tmpName : String) (content : Bytes)
    (from_filename : Bytes → Except String Bytes) :
    Except String Bytes × FS :=
  let fs1 : FS := ⟨fs.files ++ [(tmpName, content)]⟩
  match from_filename content with
  | Except.ok body => (Except.ok body, fs1)
  | Except.error e => (Except.error e, fs1)

/-- Claim C3 as amended: the scratch file is created for the one request
and closed when the routine returns, but it is never removed — on success
and on failure alike the filesystem keeps it after the routine returns. -/
theorem scratch_files_persist (fs : FS) (tmpName : String) (content : Bytes)
    (from_filename : Bytes → Except String Bytes)
    (convert_from_path : Bytes → Except String (List Page)) :
    ((convert_ipynb_to_pdf fs tmpName content from_filename).2).files =
      fs.files ++ [(tmpName, content)] ∧
    ((convert_pdf_to_images fs tmpName content convert_from_path).2).files =
      fs.files ++ [(tmpName, content)] := by
  constructor
  · unfold convert_ipynb_to_pdf
    cases from_filename content <;> rfl
  · unfold convert_pdf_to_images
    cases convert_from_path content <;> rfl

/-- Counterexample to claim C3 as stated: after the IPYNB routine returns,
the scratch notebook file still exists — state does persist beyond the
request. -/
theorem scratch_file_persists_counterexample :
    ("t.ipynb", [7]) ∈
      ((convert_ipynb_to_pdf ⟨[]⟩ "t.ipynb" [7] (fun _ => Except.ok [1])).2).files ∧
    (convert_ipynb_to_pdf ⟨[]⟩ "t.ipynb" [7] (fun _ => Except.ok [1])).2 ≠ (⟨[]⟩ : FS) := by
  decide

/-- Claim C4 as amended: on a PDF whose renderer yields n pages the routine
returns exactly n named outputs, one JPEG per page, in page order, named
page_1.jpg through page_n.jpg. -/
theorem pdf_to_images_page_outputs (fs : FS) (tmpName : String) (content : Bytes)
    (convert_from_path : Bytes → Except String (List Page)) (images : List Page)
    (h : convert_from_path content = Except.ok images) :
    (convert_pdf_to_images fs tmpName content convert_from_path).1 =
      Except.ok (pageOutputs images) ∧
    (pageOutputs images).length = images.length ∧
    (pageOutputs images).map Prod.fst = (List.range images.length).map pageName ∧
    (pageOutputs images).map Prod.snd = images.map encodeJPEG := by
  refine ⟨?_, ?_, ?_, ?_⟩
  · unfold convert_pdf_to_images
    rw [h]
  · unfold pageOutputs
    rw [List.length_map, List.enum_length]
  · unfold pageOutputs
    rw [List.map_map, ← List.enum_map_fst images, List.map_map]
    rfl
  · unfold pageOutputs
    rw [List.map_map]
    conv_rhs => rw [← List.enum_map_snd images]
    rw [List.map_map]
    rfl

/-- Witness for pdf_to_images_page_outputs on a three-page PDF. -/
theorem pdf_to_images_page_outputs_witness :
    (convert_pdf_to_images ⟨[]⟩ "t.pdf" [5] (fun _ => Except.ok [10, 20, 30])).1 =
      Except.ok (pageOutputs [10, 20, 30]) ∧
    (pageOutputs [10, 20, 30]).length = 3 :=
  ⟨(pdf_to_images_page_outputs ⟨[]⟩ "t.pdf" [5] (fun _ => Except.ok [10, 20, 30])
      [10, 20, 30] rfl).1,
   (pdf_to_images_page_outputs ⟨[]⟩ "t.pdf" [5] (fun _ => Except.ok [10, 20, 30])
      [10, 20, 30] rfl).2.1⟩

/-- Counterexample to claim C4 as stated: on a three-page PDF the three
outputs are named page_1.jpg, page_2.jpg, page_3.jpg — the names carry the
jpg extension, so they are not the bare page_1, page_2, page_3 the claim
lists. -/
theorem page_names_have_extension :
    (pageOutputs [10, 20, 30]).map Prod.fst = ["page_1.jpg", "page_2.jpg", "page_3.jpg"] ∧
    (pageOutputs [10, 20, 30]).map Prod.fst ≠ ["page_1", "page_2", "page_3"] := by
  decide

/-! ### The conversion dispatcher

src/file_converter_app.py lines 113-185.  conversion_options is the static
route table shown to the selectbox; the dispatch block (lines 137-185) is
an if/elif chain on the selected conversion type wrapped in one try/except
whose handler shows "Conversion failed: e".  Each routine call is modelled
by its outcome (normal return or raised exception) carried in a RoutineEnv,
so the theorems quantify over every possible routine behaviour.  The
dispatcher itself is a total function: a failure never escapes it, so the
process survives to serve the next request.
-/

/-- The static route table of lines 113-130: label, input type, output
extension. -/
def conversion_options : List (String × String × String) :=
  [("PNG → JPG", "image", "JPG"),
   ("JPG → PNG", "image", "PNG"),
   ("WebP → PNG", "webp", "PNG"),
   ("PNG → WebP", "png", "WebP"),
   ("GIF → PNG", "gif", "PNG"),
   ("Image → PDF", "image", "PDF"),
   ("PDF → Images (JPG)", "pdf", "IMG"),
   ("IPYNB → PDF", "ipynb", "PDF"),
   ("TXT → PDF", "txt", "PDF"),
   ("DOCX → PDF", "docx", "PDF"),
   ("HTML → PDF", "html", "PDF"),
   ("Markdown (.md) → PDF", "md", "PDF"),
   ("CSV → XLSX", "csv", "XLSX"),
   ("XLSX → CSV", "xlsx", "CSV"),
   ("JSON → CSV", "json", "CSV"),
   ("CSV → JSON", "csv", "JSON")]

/-- The names of the twelve conversion routines. -/
inductive RName
  | image_to_format
  | ipynb_to_pdf
  | text_to_pdf
  | docx_to_pdf
  | html_to_pdf
  | markdown_to_pdf
  | csv_to_xlsx
  | xlsx_to_csv
  | json_to_csv
  | csv_to_json
  | pdf_to_images
  | image_to_pdf
deriving DecidableEq

/-- Outcome of each routine call on the uploaded file: the bytes it
returns, or the exception it raises. -/
structure RoutineEnv where
  image_to_format : String → Except String Bytes
  ipynb_to_pdf : Except String Bytes
  text_to_pdf : Except String Bytes
  docx_to_pdf : Except String Bytes
  html_to_pdf : Except String Bytes
  markdown_to_pdf : Except String Bytes
  csv_to_xlsx : Except String Bytes
  xlsx_to_csv : Except String Bytes
  json_to_csv : Except String Bytes
  csv_to_json : Except String Bytes
  pdf_to_images : Except String (List (String × Bytes))
  image_to_pdf : Except String Bytes

/-- What one press of Convert produces: which routines were invoked, which
download buttons were offered (name and bytes), and the error message shown
by st.error, if any. -/
structure DispatchOutcome where
  invoked : List RName
  downloads : List (String × Bytes)
  errorShown : Option String
deriving DecidableEq

/-- The membership list of line 142. -/
def imageConvTypes : List String :=
  ["PNG → JPG", "JPG → PNG", "WebP → PNG", "GIF → PNG", "PNG → WebP"]

/-- output_ext of line 133, read from the route table. -/
def outputExt (ct : String) : String :=
  (((conversion_options.lookup ct).map fun p => p.2).getD "")

/-- Lines 180-182: a single-file result is offered for download when it is
truthy (nonempty bytes) and the type is not the page-image one. -/
def singleDone (ct fn : String) (r : RName) (b : Bytes) : DispatchOutcome :=
  if b ≠ [] ∧ ct ≠ "PDF → Images (JPG)" then
    ⟨[r], [(fn ++ "_converted." ++ (outputExt ct).toLower, b)], none⟩
  else ⟨[r], [], none⟩

/-- Lines 184-185: the except handler shows the normalized message. -/
def caughtAt (r : RName) (e : String) : DispatchOutcome :=
  ⟨[r], [], some ("Conversion failed: " ++ e)⟩

/-- One single-output branch of the chain: the routine is invoked once; a
raise lands in the handler, a return reaches the download logic. -/
def runSingle (ct fn : String) (r : RName) (out : Except String Bytes) : DispatchOutcome :=
  match out with
  | Except.ok b => singleDone ct fn r b
  | Except.error e => caughtAt r e

/-- The page-image branch of lines 172-175: one download button per named
image, in order. -/
def runMulti (r : RName) (out : Except String (List (String × Bytes))) : DispatchOutcome :=
  match out with
  | Except.ok imgs => ⟨[r], imgs, none⟩
  | Except.error e => caughtAt r e

/-- The branch the if/elif chain of lines 142-178 selects for a conversion
type: the conditions in source order, none when the chain falls through. -/
def selectedRName (ct : String) : Option RName :=
  if ct ∈ imageConvTypes then some RName.image_to_format
  else if ct = "IPYNB → PDF" then some RName.ipynb_to_pdf
  else if ct = "TXT → PDF" then some RName.text_to_pdf
  else if ct = "DOCX → PDF" then some RName.docx_to_pdf
  else if ct = "HTML → PDF" then some RName.html_to_pdf
  else if ct = "Markdown (.md) → PDF" then some RName.markdown_to_pdf
  else if ct = "CSV → XLSX" then some RName.csv_to_xlsx
  else if ct = "XLSX → CSV" then some RName.xlsx_to_csv
  else if ct = "JSON → CSV" then some RName.json_to_csv
  else if ct = "CSV → JSON" then some RName.csv_to_json
  else if ct = "PDF → Images (JPG)" then some RName.pdf_to_images
  else if ct = "Image → PDF" then some RName.image_to_pdf
  else none

/-- The body of each branch of the chain: invoke the routine on the upload
and run the shared download / except logic on its outcome. -/
def runRoutine (ct fn : String) (env : RoutineEnv) : RName → DispatchOutcome
  | RName.image_to_format => runSingle ct fn RName.image_to_format (env.image_to_format (outputExt ct))
  | RName.ipynb_to_pdf => runSingle ct fn RName.ipynb_to_pdf env.ipynb_to_pdf
  | RName.text_to_pdf => runSingle ct fn RName.text_to_pdf env.text_to_pdf
  | RName.docx_to_pdf => runSingle ct fn RName.docx_to_pdf env.docx_to_pdf
  | RName.html_to_pdf => runSingle ct fn RName.html_to_pdf env.html_to_pdf
  | RName.markdown_to_pdf => runSingle ct fn RName.markdown_to_pdf env.markdown_to_pdf
  | RName.csv_to_xlsx => runSingle ct fn RName.csv_to_xlsx env.csv_to_xlsx
  | RName.xlsx_to_csv => runSingle ct fn RName.xlsx_to_csv env.xlsx_to_csv
  | RName.json_to_csv => runSingle ct fn RName.json_to_csv env.json_to_csv
  | RName.csv_to_json => runSingle ct fn RName.csv_to_json env.csv_to_json
  | RName.pdf_to_images => runMulti RName.pdf_to_images env.pdf_to_images
  | RName.image_to_pdf => runSingle ct fn RName.image_to_pdf env.image_to_pdf

/-- The dispatch block, lines 137-185: the chain selects at most one
branch, runs it, and the fall-through case leaves result None so nothing
is offered and nothing is reported. -/
def dispatch (ct fn : String) (env : RoutineEnv) : DispatchOutcome :=
  match selectedRName ct with
  | some r => runRoutine ct fn env r
  | none => ⟨[], [], none⟩

/-- The exception a branch raises, if any. -/
def errOf {α : Type} : Except String α → Option String
  | Except.error e => some e
  | Except.ok _ => none

/-- The exception the given routine raises on this request, if any. -/
def routineErr (env : RoutineEnv) (ct : String) : RName → Option String
  | RName.image_to_format => errOf (env.image_to_format (outputExt ct))
  | RName.ipynb_to_pdf => errOf env.ipynb_to_pdf
  | RName.text_to_pdf => errOf env.text_to_pdf
  | RName.docx_to_pdf => errOf env.docx_to_pdf
  | RName.html_to_pdf => errOf env.html_to_pdf
  | RName.markdown_to_pdf => errOf env.markdown_to_pdf
  | RName.csv_to_xlsx => errOf env.csv_to_xlsx
  | RName.xlsx_to_csv => errOf env.xlsx_to_csv
  | RName.json_to_csv => errOf env.json_to_csv
  | RName.csv_to_json => errOf env.csv_to_json
  | RName.pdf_to_images => errOf env.pdf_to_images
  | RName.image_to_pdf => errOf env.image_to_pdf

/-- The exception raised by the routine the chain selects for ct, if any. -/
def selectedError (ct : String) (env : RoutineEnv) : Option String :=
  match selectedRName ct with
  | some r => routineErr env ct r
  | none => none

theorem runSingle_err (ct fn : String) (r : RName) (out : Except String Bytes) (e : String)
    (h : errOf out = some e) : runSingle ct fn r out = caughtAt r e := by
  cases out with
  | ok b => exact absurd h (by simp [errOf])
  | error e2 =>
    simp only [errOf, Option.some.injEq] at h
    rw [h]
    rfl

theorem runMulti_err (r : RName) (out : Except String (List (String × Bytes))) (e : String)
    (h : errOf out = some e) : runMulti r out = caughtAt r e := by
  cases out with
  | ok b => exact absurd h (by simp [errOf])
  | error e2 =>
    simp only [errOf, Option.some.injEq] at h
    rw [h]
    rfl

theorem runRoutine_err (ct fn : String) (env : RoutineEnv) (r : RName) (e : String)
    (h : routineErr env ct r = some e) : runRoutine ct fn env r = caughtAt r e := by
  cases r <;>
    first
    | exact runSingle_err _ _ _ _ _ h
    | exact runMulti_err _ _ _ h

/-- Claim C1: whenever the selected routine raises, the single try/except
boundary catches it; the user sees one human-readable message carrying the
exception text, no download (no partial output) is offered, and the routine
was invoked at most once (no retry).  dispatch is a total function, so the
failure never escapes and the dispatcher serves the next request. -/
theorem dispatch_catches_failures (ct fn : String) (env : RoutineEnv) (e : String)
    (h : selectedError ct env = some e) :
    (dispatch ct fn env).errorShown = some ("Conversion failed: " ++ e) ∧
    (dispatch ct fn env).downloads = [] ∧
    (dispatch ct fn env).invoked.length ≤ 1 := by
  have hcaught : ∀ r : RName, (caughtAt r e).errorShown = some ("Conversion failed: " ++ e) ∧
      (caughtAt r e).downloads = [] ∧ (caughtAt r e).invoked.length ≤ 1 :=
    fun r => ⟨rfl, rfl, by simp [caughtAt]⟩
  cases hs : selectedRName ct with
  | none =>
    unfold selectedError at h
    rw [hs] at h
    exact absurd h (by simp)
  | some r =>
    have hd : dispatch ct fn env = runRoutine ct fn env r := by
      unfold dispatch
      rw [hs]
    have he : routineErr env ct r = some e := by
      unfold selectedError at h
      rw [hs] at h
      exact h
    rw [hd, runRoutine_err ct fn env r e he]
    exact hcaught r

/-- A routine environment where the CSV to XLSX routine raises and the
others return. -/
def envCsvBoom : RoutineEnv :=
  ⟨fun _ => Except.ok [1], Except.ok [1], Except.ok [1], Except.ok [1], Except.ok [1],
   Except.ok [1], Except.error "boom", Except.ok [1], Except.ok [1], Except.ok [1],
   Except.ok [("page_1.jpg", [1])], Except.ok [1]⟩

/-- Witness for dispatch_catches_failures: the CSV to XLSX routine raises
boom and the user sees the normalized message with no download. -/
theorem dispatch_catches_failures_witness :
    (dispatch "CSV → XLSX" "f" envCsvBoom).errorShown = some ("Conversion failed: " ++ "boom") ∧
    (dispatch "CSV → XLSX" "f" envCsvBoom).downloads = [] ∧
    (dispatch "CSV → XLSX" "f" envCsvBoom).invoked.length ≤ 1 :=
  dispatch_catches_failures "CSV → XLSX" "f" envCsvBoom "boom" (by decide)

/-- Claim C2 as amended: a conversion type outside the route table invokes
no routine and produces no download, but also surfaces no error at all —
the chain falls through silently (the selectbox cannot submit such a type,
and no UnsupportedConversion error exists in the code). -/
theorem dispatch_unrouted_silent (ct fn : String) (env : RoutineEnv)
    (h : ∀ p ∈ conversion_options, ct ≠ p.1) :
    dispatch ct fn env = ⟨[], [], none⟩ := by
  simp only [conversion_options, List.forall_mem_cons] at h
  obtain ⟨h1, h2, h3, h4, h5, h6, h7, h8, h9, h10, h11, h12, h13, h14, h15, h16, -⟩ := h
  have hs : selectedRName ct = none := by
    unfold selectedRName
    rw [if_neg (by
      simp only [imageConvTypes, List.mem_cons, List.not_mem_nil, or_false]
      push_neg
      exact ⟨h1, h2, h3, h5, h4⟩)]
    rw [if_neg h8, if_neg h9, if_neg h10, if_neg h11, if_neg h12, if_neg h13, if_neg h14,
      if_neg h15, if_neg h16, if_neg h7, if_neg h6]
  unfold dispatch
  rw [hs]

/-- Witness for dispatch_unrouted_silent at a pair absent from the table. -/
theorem dispatch_unrouted_silent_witness :
    (∀ p ∈ conversion_options, "XLSX → JSON" ≠ p.1) ∧
    dispatch "XLSX → JSON" "f" envCsvBoom = ⟨[], [], none⟩ :=
  ⟨by decide, dispatch_unrouted_silent "XLSX → JSON" "f" envCsvBoom (by decide)⟩

/-- Counterexample to claim C2 as stated: the pair DOCX to XLSX is not in
the route table, and the dispatcher indeed invokes nothing — but it shows
no error whatsoever, rather than an UnsupportedConversion error. -/
theorem dispatch_unrouted_no_error_counterexample :
    (∀ p ∈ conversion_options, "DOCX → XLSX" ≠ p.1) ∧
    (dispatch "DOCX → XLSX" "doc" envCsvBoom).invoked = [] ∧
    (dispatch "DOCX → XLSX" "doc" envCsvBoom).errorShown = none := by
  decide

end FileConverterApp

namespace NotebookApp

/-!
Model of convert_notebook_to_pdf in src/app.py, lines 11-67.  The whole
body sits in one try block; FileNotFoundError and the generic Exception
handler map every raised exception to a (False, message) pair, so the
function never raises.  The nbconvert exporter and the filesystem facts the
function consults are parameters of the model.
-/

/-- Byte sequences, as in the other component. -/
abbrev Bytes := List Nat

/-- A parsed notebook node. -/
abbrev Notebook := Nat

/-- A raised Python exception: whether it is a FileNotFoundError, and its
message text. -/
structure PyExc where
  isFileNotFound : Bool
  msg : String
deriving DecidableEq

/-- Whether the second list is an initial segment of the first. -/
def takesLead : List Char → List Char → Bool
  | _, [] => true
  | [], _ :: _ => false
  | a :: as, b :: bs => a == b && takesLead as bs

/-- Whether the needle occurs somewhere in the haystack list. -/
def containsSeqL : List Char → List Char → Bool
  | [], needle => needle.isEmpty
  | h :: t, needle => takesLead (h :: t) needle || containsSeqL t needle

/-- The Python membership test, substring in message. -/
def containsSeq (hay needle : String) : Bool := containsSeqL hay.data needle.data

/-- Message of line 33, template file absent. -/
def templateMissingMsg : String :=
  "Error: The required template file \x27notitle.tplx\x27 was not found in the project directory."

/-- Message of lines 64-66, LaTeX missing. -/
def latexMissingMsg : String :=
  "ERROR: LaTeX is not installed or not in the system\x27s PATH. Please install a LaTeX distribution (like MiKTeX for Windows, TeX Live for Linux, or MacTeX for macOS) to convert notebooks to PDF."

def latexNeedle1 : String := "xelatex not found on PATH"

def latexNeedle2 : String := "pdflatex not found on PATH"

/-- os.path.basename on a POSIX-style path. -/
def baseNameOf (p : String) : String :=
  String.mk ((p.data.reverse.takeWhile fun c => c != '/').reverse)

/-- What the environment supplies to one call: whether notitle.tplx exists
next to the script, the outcome of opening and parsing the notebook file,
and the outcome of PDFExporter.from_notebook_node. -/
structure NbEnv where
  templateExists : Bool
  notebook : Except PyExc Notebook
  from_notebook_node : Notebook → Except PyExc Bytes

/-- Observable effects of one call: whether the notebook file was opened,
whether the exporter ran, and the bytes written to the output path, if
any. -/
structure NbEffects where
  readAttempted : Bool
  exportAttempted : Bool
  outputWritten : Option Bytes
deriving DecidableEq

/-- The try-block body, lines 27-56: check the template, read the notebook,
run the exporter, write the PDF; Except.error is an exception escaping to
the handlers. -/
def nbBodyRun (output_path : String) (env : NbEnv) :
    Except PyExc (Bool × String) × NbEffects :=
  if env.templateExists = false then
    (Except.ok (false, templateMissingMsg), ⟨false, false, none⟩)
  else
    match env.notebook with
    | Except.error ex => (Except.error ex, ⟨true, false, none⟩)
    | Except.ok nb =>
      match env.from_notebook_node nb with
      | Except.error ex => (Except.error ex, ⟨true, true, none⟩)
      | Except.ok pdf =>
        (Except.ok (true, "Successfully converted to " ++ baseNameOf output_path),
         ⟨true, true, some pdf⟩)

/-- The two except clauses, lines 58-67: FileNotFoundError first, then the
generic handler that recognizes the missing-LaTeX messages. -/
def nbHandler (notebook_path : String) (ex : PyExc) : Bool × String :=
  if ex.isFileNotFound then
    (false, "Error: The file \x27" ++ notebook_path ++ "\x27 was not found.")
  else if containsSeq ex.msg latexNeedle1 || containsSeq ex.msg latexNeedle2 then
    (false, latexMissingMsg)
  else
    (false, "An unexpected error occurred: " ++ ex.msg)

/-- convert_notebook_to_pdf, lines 11-67: run the body, catch any raised
exception in the handlers. -/
def convert_notebook_to_pdf (notebook_path output_path : String) (env : NbEnv) :
    (Bool × String) × NbEffects :=
  match nbBodyRun output_path env with
  | (Except.ok res, eff) => (res, eff)
  | (Except.error ex, eff) => (nbHandler notebook_path ex, eff)

/-- Claim C8: when the exporter raises the missing-LaTeX error (an OSError,
not a FileNotFoundError), the function returns False with the user-facing
LaTeX-missing message and writes no output file: no partial output is left
behind. -/
theorem latex_missing_reported_no_output (np op : String) (env : NbEnv) (nb : Notebook)
    (ex : PyExc)
    (h1 : env.templateExists = true) (h2 : env.notebook = Except.ok nb)
    (h3 : env.from_notebook_node nb = Except.error ex) (h4 : ex.isFileNotFound = false)
    (h5 : containsSeq ex.msg latexNeedle1 = true ∨ containsSeq ex.msg latexNeedle2 = true) :
    convert_notebook_to_pdf np op env = ((false, latexMissingMsg), ⟨true, true, none⟩) := by
  have hbody : nbBodyRun op env = (Except.error ex, ⟨true, true, none⟩) := by
    unfold nbBodyRun
    rw [if_neg (by rw [h1]; simp)]
    simp only [h2, h3]
  have hh : nbHandler np ex = (false, latexMissingMsg) := by
    unfold nbHandler
    rw [if_neg (by rw [h4]; simp)]
    rw [if_pos (by rcases h5 with h | h <;> simp [h])]
  unfold convert_notebook_to_pdf
  rw [hbody]
  show (nbHandler np ex, (⟨true, true, none⟩ : NbEffects)) = _
  rw [hh]

/-- An environment where the template exists, the notebook parses, and the
exporter raises the xelatex-missing OSError. -/
def envLatexMissing : NbEnv :=
  ⟨true, Except.ok 0, fun _ => Except.error ⟨false, "xelatex not found on PATH"⟩⟩

/-- Witness for latex_missing_reported_no_output. -/
theorem latex_missing_reported_no_output_witness :
    convert_notebook_to_pdf "nb.ipynb" "out.pdf" envLatexMissing =
      ((false, latexMissingMsg), ⟨true, true, none⟩) :=
  latex_missing_reported_no_output "nb.ipynb" "out.pdf" envLatexMissing 0
    ⟨false, "xelatex not found on PATH"⟩ rfl rfl rfl rfl (Or.inl (by decide))

/-- Claim C10: convert_notebook_to_pdf never raises — every exception the
body raises is mapped by the handlers to a (False, message) pair — and when
notitle.tplx is absent it returns False with the template-not-found message
before the notebook is read or the exporter invoked. -/
theorem convert_notebook_total_template_guard (np op : String) (env : NbEnv) :
    (env.templateExists = false →
      convert_notebook_to_pdf np op env =
        ((false, templateMissingMsg), ⟨false, false, none⟩)) ∧
    (∀ ex eff, nbBodyRun op env = (Except.error ex, eff) →
      convert_notebook_to_pdf np op env = (nbHandler np ex, eff)) ∧
    (∀ ex, (nbHandler np ex).1 = false) := by
  refine ⟨?_, ?_, ?_⟩
  · intro h
    unfold convert_notebook_to_pdf nbBodyRun
    rw [if_pos h]
  · intro ex eff hb
    unfold convert_notebook_to_pdf
    rw [hb]
  · intro ex
    unfold nbHandler
    split_ifs <;> rfl

/-- An environment where the template file is absent. -/
def envTplMissing : NbEnv := ⟨false, Except.ok 0, fun _ => Except.ok [1]⟩

/-- Witness for convert_notebook_total_template_guard. -/
theorem convert_notebook_total_template_guard_witness :
    convert_notebook_to_pdf "nb.ipynb" "out.pdf" envTplMissing =
      ((false, templateMissingMsg), ⟨false, false, none⟩) :=
  (convert_notebook_total_template_guard "nb.ipynb" "out.pdf" envTplMissing).1 rfl

end NotebookApp
